import Mathlib

/-!
Verification of the `GradeAnalyzer` engine
(`python-for-data-science/grade_analyzer/grade_analyzer.py`).

The Python class is embedded shallowly:

* a student record (the dict built by `parse_student_line`) becomes the
  structure `Student`, whose `grades` dict always holds the five catalog
  subjects in insertion order `Math, Physics, Chemistry, Biology, English`
  (the only shape the loader ever produces);
* the analyzer's mutable fields `_students` / `_loaded` become the
  structure `Analyzer`; `load_data` becomes a function from the previous
  state and an abstract file outcome to the next state;
* Python numbers are embedded as `ℤ` (scores) and `ℚ` (true-division
  results); Pearson correlation, which needs a square root, is embedded
  over `ℝ`;
* Python's stable `sorted` is embedded as `List.insertionSort`, which is
  a stable sort, so it computes the same list;
* a `try`/`except` body whose interior can raise is embedded as an
  `Except Unit` value, and the public method is the catch of that body,
  returning the method's sentinel on error.
-/

namespace GA

/-- Grades dict of one student record, as built by `parse_student_line`:
exactly the five catalog subjects, insertion order Math, Physics,
Chemistry, Biology, English. -/
structure Grades where
  math : ℤ
  physics : ℤ
  chemistry : ℤ
  biology : ℤ
  english : ℤ
deriving DecidableEq, Repr

/-- Python `student['grades'].values()` in dict insertion order. -/
def Grades.values (g : Grades) : List ℤ :=
  [g.math, g.physics, g.chemistry, g.biology, g.english]

/-- Python `student['grades'].items()` in dict insertion order. -/
def Grades.items (g : Grades) : List (String × ℤ) :=
  [("Math", g.math), ("Physics", g.physics), ("Chemistry", g.chemistry),
   ("Biology", g.biology), ("English", g.english)]

/-- Python `student['grades'].get(c, d)`. -/
def Grades.getD (g : Grades) (c : String) (d : ℤ) : ℤ :=
  if c = "Math" then g.math
  else if c = "Physics" then g.physics
  else if c = "Chemistry" then g.chemistry
  else if c = "Biology" then g.biology
  else if c = "English" then g.english
  else d

/-- One student record: the dict `{id, name, grades}`. -/
structure Student where
  id : String
  name : String
  grades : Grades
deriving DecidableEq, Repr

/-- The fixed subject catalog `self._subjects`. -/
def subjects : List String :=
  ["Math", "Physics", "Chemistry", "Biology", "English"]

/-- Mutable state of a `GradeAnalyzer` instance: `_students` and
`_loaded` (the filename plays no role in the embedded operations). -/
structure Analyzer where
  students : List Student
  loaded : Bool
deriving DecidableEq, Repr

/-- Python `str.strip()` on a character list: drop whitespace at both
ends. -/
def stripChars (l : List Char) : List Char :=
  ((l.dropWhile Char.isWhitespace).reverse.dropWhile Char.isWhitespace).reverse

/-- Python `str.split(',')` on a character list: split at every comma,
keeping empty fields (`''.split(',') == ['']`). -/
def splitComma : List Char → List (List Char)
  | [] => [[]]
  | ch :: rest =>
    let r := splitComma rest
    if ch = ',' then [] :: r
    else
      match r with
      | [] => [[ch]]
      | fld :: flds => (ch :: fld) :: flds

/-- Python `int(s)`: strip surrounding whitespace, optional sign, at
least one digit. -/
def pyInt (s : String) : Option ℤ :=
  let core : List Char → Option ℤ := fun ds =>
    if ds ≠ [] ∧ ds.all Char.isDigit then
      some (ds.foldl (fun acc ch => acc * 10 + (ch.toNat - '0'.toNat : ℤ)) 0)
    else none
  match stripChars s.toList with
  | '-' :: ds => (core ds).map Neg.neg
  | '+' :: ds => core ds
  | ds => core ds

/-- Method `parse_student_line`: strip the line, split on commas, require
exactly 7 fields, parse the five scores as integers; any failure is
caught and yields `none`. -/
def parse_student_line (line : String) : Option Student :=
  let parts := (splitComma (stripChars line.toList)).map String.mk
  if parts.length = 7 then
    match pyInt (parts.getD 2 ""), pyInt (parts.getD 3 ""),
      pyInt (parts.getD 4 ""), pyInt (parts.getD 5 ""),
      pyInt (parts.getD 6 "") with
    | some m, some p, some ch, some b, some e =>
        some ⟨parts.getD 0 "", parts.getD 1 "", ⟨m, p, ch, b, e⟩⟩
    | _, _, _, _, _ => none
  else none

/-- Outcome of `open(self._filename)` as seen by `load_data`: the file is
absent (`FileNotFoundError`), unreadable for another reason (caught by
the generic `except`), or readable with the given list of lines. -/
inductive FileOutcome where
  | absent
  | unreadable
  | content (lines : List String)
deriving DecidableEq, Repr

/-- Method `load_data`.  The reset `_students = []; _loaded = False`
happens inside the `with open(...)` block, so it runs only once the open
succeeded.  `FileNotFoundError` is caught by a handler that only prints;
any other open failure is caught by the generic handler, which sets
`_loaded = False` but does not touch `_students`.  On an empty file
`next(file)` raises `StopIteration` after the reset, so the generic
handler leaves the freshly emptied state with `_loaded = False`. -/
def load_data (st : Analyzer) (f : FileOutcome) : Analyzer :=
  match f with
  | .absent => st
  | .unreadable => { st with loaded := false }
  | .content [] => { st with students := [], loaded := false }
  | .content (_ :: rest) =>
      { st with students := rest.filterMap parse_student_line, loaded := true }

/-- Method `check_data_loaded`. -/
def check_data_loaded (st : Analyzer) : Bool := st.loaded

/-- Method `validate_student_id`: first record whose `id` equals the
argument, `None` when there is none. -/
def validate_student_id (st : Analyzer) (sid : String) : Option Student :=
  st.students.find? (fun s => s.id == sid)

/-- Method `validate_course_name`: the name itself when it is in the
catalog, `None` otherwise. -/
def validate_course_name (c : String) : Option String :=
  if c ∈ subjects then some c else none

/-- Method `validate_data`: in the typed embedding every record has the
required fields with the required types, so only the loaded check and
the grade-count check remain. -/
def validate_data (st : Analyzer) : Bool :=
  if !st.loaded then false
  else st.students.all (fun s => s.grades.values.length == subjects.length)

/-- Method `get_student_count`. -/
def get_student_count (st : Analyzer) : ℕ :=
  if !st.loaded then 0 else st.students.length

/-- Method `calculate_student_average`:
`sum(grades.values()) / len(grades.values())` over the found record. -/
def calculate_student_average (st : Analyzer) (sid : String) : Option ℚ :=
  if !st.loaded then none
  else match validate_student_id st sid with
    | none => none
    | some s => some ((s.grades.values.sum : ℚ) / (s.grades.values.length : ℚ))

/-- Python `max(items, key=value)`: first item with maximal value. -/
def maxByVal : List (String × ℤ) → Option (String × ℤ)
  | [] => none
  | x :: xs => some (xs.foldl (fun best y => if y.2 > best.2 then y else best) x)

/-- Python `min(items, key=value)`: first item with minimal value. -/
def minByVal : List (String × ℤ) → Option (String × ℤ)
  | [] => none
  | x :: xs => some (xs.foldl (fun best y => if y.2 < best.2 then y else best) x)

/-- Method `get_student_highest_score`. -/
def get_student_highest_score (st : Analyzer) (sid : String) :
    Option (String × ℤ) :=
  if !st.loaded then none
  else match validate_student_id st sid with
    | none => none
    | some s => maxByVal s.grades.items

/-- Method `get_student_lowest_score`. -/
def get_student_lowest_score (st : Analyzer) (sid : String) :
    Option (String × ℤ) :=
  if !st.loaded then none
  else match validate_student_id st sid with
    | none => none
    | some s => minByVal s.grades.items

/-- Method `is_student_passing`: note the not-loaded branch returns
`False` while the invalid-id and invalid-threshold branches return
`None`. -/
def is_student_passing (st : Analyzer) (sid : String) (threshold : ℚ) :
    Option Bool :=
  if !st.loaded then some false
  else match validate_student_id st sid with
    | none => none
    | some _ =>
      if threshold < 0 ∨ threshold > 100 then none
      else match calculate_student_average st sid with
        | none => some false
        | some avg => some (avg ≥ threshold)

/-- Threshold table of `convert_to_letter_grade`, evaluated high to low,
first match wins, `'F'` when nothing matches. -/
def gradeBands : List (ℚ × Char) :=
  [(90, 'A'), (80, 'B'), (70, 'C'), (60, 'D'), (50, 'E')]

/-- The loop of `convert_to_letter_grade` over the band table. -/
def firstBand (s : ℚ) : List (ℚ × Char) → Char
  | [] => 'F'
  | (t, L) :: rest => if s ≥ t then L else firstBand s rest

/-- Method `convert_to_letter_grade`; argument `none` embeds a value that
is not an `int` or `float`, which the `isinstance` check rejects. -/
def convert_to_letter_grade : Option ℚ → Option Char
  | none => none
  | some s => if s < 0 ∨ s > 100 then none else some (firstBand s gradeBands)

/-- Method `get_course_scores`: every record's score for the subject in
store order, `.get(course, 0)` on each grades dict. -/
def get_course_scores (st : Analyzer) (c : String) : List ℤ :=
  if !st.loaded then []
  else match validate_course_name c with
    | none => []
    | some _ => st.students.map (fun s => s.grades.getD c 0)

/-- Method `calculate_course_average`: `sum/len` of the course scores,
`0` when not loaded, when the name is invalid, or when there are no
scores. -/
def calculate_course_average (st : Analyzer) (c : String) : ℚ :=
  if !st.loaded then 0
  else match validate_course_name c with
    | none => 0
    | some _ =>
      let scores := get_course_scores st c
      if scores = [] then 0 else (scores.sum : ℚ) / (scores.length : ℚ)

/-- Method `find_course_median`: sort the course scores ascending with
Python's stable `sorted`; odd count picks index `n // 2`, even count
averages the two middle elements, empty gives `None`. -/
def find_course_median (st : Analyzer) (c : String) : Option ℚ :=
  let scores := (get_course_scores st c).insertionSort (· ≤ ·)
  let n := scores.length
  if n = 0 then none
  else if n % 2 = 1 then some ((scores.getD (n / 2) 0 : ℤ) : ℚ)
  else some (((scores.getD (n / 2 - 1) 0 : ℤ) + (scores.getD (n / 2) 0 : ℤ) : ℚ) / 2)

/-- Letter-grade counters of `get_course_grade_distribution`, keys
`'A'` to `'F'` in insertion order, all six always present. -/
structure Dist where
  a : ℕ
  b : ℕ
  c : ℕ
  d : ℕ
  e : ℕ
  f : ℕ
deriving DecidableEq, Repr

/-- Python `distribution[letter] += 1`. -/
def Dist.incr (dist : Dist) (L : Char) : Dist :=
  if L = 'A' then { dist with a := dist.a + 1 }
  else if L = 'B' then { dist with b := dist.b + 1 }
  else if L = 'C' then { dist with c := dist.c + 1 }
  else if L = 'D' then { dist with d := dist.d + 1 }
  else if L = 'E' then { dist with e := dist.e + 1 }
  else { dist with f := dist.f + 1 }

/-- Python `distribution[letter]`. -/
def Dist.count (dist : Dist) (L : Char) : ℕ :=
  if L = 'A' then dist.a
  else if L = 'B' then dist.b
  else if L = 'C' then dist.c
  else if L = 'D' then dist.d
  else if L = 'E' then dist.e
  else dist.f

/-- Loop body of `get_course_grade_distribution`: classify every score;
a score whose classification is `None` makes `distribution[None]` raise
`KeyError`, embedded as `Except.error ()`. -/
def distribution_body (scores : List ℤ) : Except Unit Dist :=
  scores.foldlM
    (fun dist (sc : ℤ) =>
      match convert_to_letter_grade (some (sc : ℚ)) with
      | some L => .ok (dist.incr L)
      | none => .error ())
    ⟨0, 0, 0, 0, 0, 0⟩

/-- Method `get_course_grade_distribution`; `none` embeds the empty dict
`\x7b\x7d`, returned when not loaded, when the course name is invalid, and by
the `except` handler when the loop raised. -/
def get_course_grade_distribution (st : Analyzer) (c : String) : Option Dist :=
  if !st.loaded then none
  else match validate_course_name c with
    | none => none
    | some _ =>
      match distribution_body (get_course_scores st c) with
      | .ok dist => some dist
      | .error _ => none

/-- Method `rank_courses_by_difficulty`: catalog subjects paired with
their course average, stably sorted ascending by average. -/
def rank_courses_by_difficulty (st : Analyzer) : List (String × ℚ) :=
  if !st.loaded then []
  else (subjects.map (fun subj => (subj, calculate_course_average st subj))).insertionSort
    (fun x y => x.2 ≤ y.2)

/-- Python `max(scores, default=0)`. -/
def listMaxD (l : List ℤ) (dflt : ℤ) : ℤ :=
  match l with
  | [] => dflt
  | x :: xs => xs.foldl max x

/-- Python `min(scores, default=0)`. -/
def listMinD (l : List ℤ) (dflt : ℤ) : ℤ :=
  match l with
  | [] => dflt
  | x :: xs => xs.foldl min x

/-- Result bundle of `get_course_statistics`. -/
structure CourseStats where
  average : ℚ
  median : Option ℚ
  highest : ℤ
  lowest : ℤ
  distribution : Option Dist
deriving DecidableEq, Repr

/-- Method `get_course_statistics`. -/
def get_course_statistics (st : Analyzer) (c : String) : Option CourseStats :=
  if !st.loaded then none
  else match validate_course_name c with
    | none => none
    | some _ =>
      some { average := calculate_course_average st c
             median := find_course_median st c
             highest := listMaxD (get_course_scores st c) 0
             lowest := listMinD (get_course_scores st c) 0
             distribution := get_course_grade_distribution st c }

/-- Method `rank_students_by_average`: every record's id paired with its
average (looked up through `calculate_student_average`, which resolves
the id to its first matching record), stably sorted descending by
average.  On a loaded state the lookup always succeeds, so the `getD 0`
default is never used. -/
def rank_students_by_average (st : Analyzer) : List (String × ℚ) :=
  if !st.loaded then []
  else (st.students.map
      (fun s => (s.id, (calculate_student_average st s.id).getD 0))).insertionSort
    (fun x y => y.2 ≤ x.2)

/-- Method `get_top_performers`: first `n` entries of the ranking,
empty when `n` is not a positive integer. -/
def get_top_performers (st : Analyzer) (n : ℤ) : List (String × ℚ) :=
  if !st.loaded then []
  else if n ≤ 0 then []
  else (rank_students_by_average st).take n.toNat

/-- Method `get_struggling_students`: records whose average is strictly
below the threshold; threshold outside `[0, 100]` gives the empty list.
On a loaded state the average lookup always succeeds. -/
def get_struggling_students (st : Analyzer) (threshold : ℚ) : List Student :=
  if !st.loaded then []
  else if threshold < 0 ∨ threshold > 100 then []
  else st.students.filter
    (fun s => (calculate_student_average st s.id).getD 0 < threshold)

/-- Result bundle of `calculate_class_statistics`. -/
structure ClassStats where
  top_performers : List (String × ℚ)
  struggling_students : List Student
  subject_statistics : List (String × Option CourseStats)
  student_count : ℕ
deriving DecidableEq, Repr

/-- Method `calculate_class_statistics`. -/
def calculate_class_statistics (st : Analyzer) : Option ClassStats :=
  if !st.loaded then none
  else some
    { top_performers := get_top_performers st 5
      struggling_students := get_struggling_students st 60
      subject_statistics :=
        subjects.map (fun subj => (subj, get_course_statistics st subj))
      student_count := st.students.length }

/-- Method `get_grade_distribution_summary`. -/
def get_grade_distribution_summary (st : Analyzer) :
    List (String × Option Dist) :=
  if !st.loaded then []
  else subjects.map (fun subj => (subj, get_course_grade_distribution st subj))

/-- The nested loop `for i, s1 in enumerate(subjects): for s2 in
subjects[i+1:]`: all unordered pairs, first index ascending. -/
def upperPairs : List String → List (String × String)
  | [] => []
  | x :: xs => xs.map (fun y => (x, y)) ++ upperPairs xs

/-- Column of scores used by `find_subject_correlations`:
`[student['grades'][subject] for student in students]`. -/
def colScores (st : Analyzer) (subj : String) : List ℤ :=
  st.students.map (fun s => s.grades.getD subj 0)

/-- Python float result of `np.corrcoef`: a real number or NaN. -/
inductive PyFloat where
  | nan
  | val (x : ℝ)

/-- Python `abs` on floats: `abs` of NaN is NaN. -/
noncomputable def pyAbs : PyFloat → PyFloat
  | .nan => .nan
  | .val x => .val |x|

/-- Python `<=` on floats: every comparison involving NaN is false. -/
def pyLe : PyFloat → PyFloat → Prop
  | .val x, .val y => x ≤ y
  | _, _ => False

/-- Sum of squared deviations of a column from its mean (`n - 1` times
the sample variance used by `np.corrcoef`); it is zero exactly for a
constant or empty column, the case in which `np.corrcoef` divides zero
by zero and emits NaN. -/
def sumSqDev (xs : List ℤ) : ℚ :=
  let m : ℚ := (xs.sum : ℚ) / (xs.length : ℚ)
  (xs.map (fun x => ((x : ℚ) - m) ^ 2)).sum

/-- Sum of products of the paired deviations (the covariance
numerator). -/
def sumDevProd (xs ys : List ℤ) : ℚ :=
  let mx : ℚ := (xs.sum : ℚ) / (xs.length : ℚ)
  let my : ℚ := (ys.sum : ℚ) / (ys.length : ℚ)
  ((xs.zip ys).map (fun p => ((p.1 : ℚ) - mx) * ((p.2 : ℚ) - my))).sum

/-- Value of the Pearson coefficient in the defined case: covariance
over the product of standard deviations; the common `1/(n-1)` factors of
`np.corrcoef` cancel, leaving the sum-of-deviations form. -/
noncomputable def pearsonVal (xs ys : List ℤ) : ℝ :=
  (sumDevProd xs ys : ℝ) /
    (Real.sqrt ((sumSqDev xs : ℚ) : ℝ) * Real.sqrt ((sumSqDev ys : ℚ) : ℝ))

/-- Pearson coefficient as computed by `np.corrcoef`: NaN when either
column has zero variance (a single student, a constant column, or no
students — the divisor is zero and NumPy emits NaN), the real value
otherwise. -/
noncomputable def pearson (xs ys : List ℤ) : PyFloat :=
  if sumSqDev xs = 0 ∨ sumSqDev ys = 0 then .nan
  else .val (pearsonVal xs ys)

open Classical in
/-- Method `find_subject_correlations`: one triple per unordered catalog
pair, sorted by `abs` of the correlation, descending, under Python float
comparison semantics (every comparison involving NaN is false).  The
embedding sorts with a stable insertion sort over that comparator; when
NaN keys are present the comparator admits no unique order (CPython's
Timsort then produces some permutation of the same triples), and none of
the theorems below depends on the order of that case. -/
noncomputable def find_subject_correlations (st : Analyzer) :
    List (String × String × PyFloat) :=
  if !st.loaded then []
  else ((upperPairs subjects).map
      (fun p => (p.1, p.2, pearson (colScores st p.1) (colScores st p.2)))).insertionSort
    (fun x y => pyLe (pyAbs y.2.2) (pyAbs x.2.2))

/-!
Object-level model for the `students` property.

`self._students.copy()` copies the list object but not the record dicts
it holds, so the copy and the store share the records.  To reason about
that sharing, records and list objects live in an explicit heap,
addressed by naturals; the store keeps the address of its `_students`
list, and the engine state seen by the pure operations above is
recovered by dereferencing. -/

/-- Heap of Python objects: record dicts and list objects (a list object
holds record addresses). -/
structure Heap where
  recs : ℕ → Student
  lists : ℕ → List ℕ

/-- Store-side state: the address of the `_students` list object and the
`_loaded` flag. -/
structure StoreSt where
  studentsAddr : ℕ
  loaded : Bool

/-- Records the store holds, by dereferencing its list object. -/
def storeRecords (h : Heap) (st : StoreSt) : List Student :=
  (h.lists st.studentsAddr).map h.recs

/-- Engine state seen by the pure operations. -/
def storeAnalyzer (h : Heap) (st : StoreSt) : Analyzer :=
  ⟨storeRecords h st, st.loaded⟩

/-- Property `students`: `self._students.copy()` allocates a fresh list
object (at an unused address supplied by the caller) holding the same
record addresses, and returns its address. -/
def students_copy (h : Heap) (st : StoreSt) (fresh : ℕ) : Heap × ℕ :=
  ({ h with lists := fun x => if x = fresh then h.lists st.studentsAddr else h.lists x },
   fresh)

/-- Mutation of a list object (e.g. `append`, `remove`, item
assignment on the returned copy). -/
def setList (h : Heap) (addr : ℕ) (l : List ℕ) : Heap :=
  { h with lists := fun x => if x = addr then l else h.lists x }

/-- In-place mutation of a record dict. -/
def setRec (h : Heap) (addr : ℕ) (r : Student) : Heap :=
  { h with recs := fun x => if x = addr then r else h.recs x }

/-- The six letter grades, insertion order of the distribution dict. -/
def sixLetters : List Char := ['A', 'B', 'C', 'D', 'E', 'F']

/-- Header line of the input format. -/
def headerLine : String := "id,name,Math,Physics,Chemistry,Biology,English"

/-- Concrete loaded state whose Math column is `[70, 50, 60]`. -/
def exampleOdd : Analyzer :=
  load_data ⟨[], false⟩ (.content [headerLine,
    "S1,Ann,70,10,20,30,40", "S2,Bob,50,11,21,31,41", "S3,Cyd,60,12,22,32,42"])

/-- Concrete loaded state whose Math column is `[70, 50, 60, 80]`. -/
def exampleEven : Analyzer :=
  load_data ⟨[], false⟩ (.content [headerLine,
    "S1,Ann,70,10,20,30,40", "S2,Bob,50,11,21,31,41", "S3,Cyd,60,12,22,32,42",
    "S4,Dee,80,13,23,33,43"])

/-- Concrete state produced by loading a line with the out-of-range Math
score 150, which the loader admits unchecked. -/
def exampleOver : Analyzer :=
  load_data ⟨[], false⟩ (.content [headerLine, "S1,Ann,150,10,20,30,40"])

/-- Concrete loaded state with a single student: every subject column is
a one-element list, so every column variance is zero. -/
def exampleSingle : Analyzer :=
  load_data ⟨[], false⟩ (.content [headerLine, "S1,Ann,90,80,70,60,95"])

/-- Concrete heap for the `students` property: one record dict at record
address 0, the store's `_students` list object at list address 0. -/
def exHeap : Heap :=
  { recs := fun _ => ⟨"S1", "Ann", ⟨90, 80, 70, 60, 95⟩⟩
    lists := fun x => if x = 0 then [0] else [] }

/-- Concrete store state over `exHeap`. -/
def exStore : StoreSt := ⟨0, true⟩

/-- Arithmetic mean of one record's grade values (the value
`calculate_student_average` produces for that record's id). -/
def studentAvgVal (s : Student) : ℚ :=
  (s.grades.values.sum : ℚ) / (s.grades.values.length : ℚ)

/-!
Theorems.
-/

/-- C1 counterexample: with a previously successful load (`_loaded =
True`, one record) and the source now absent, `load_data` leaves Load
State `true` and the record set non-empty, because the reset statements
sit inside the `with open(...)` block and the `FileNotFoundError`
handler only prints. -/
theorem load_data_absent_after_success_keeps_state :
    (load_data ⟨[⟨"S1", "Ann", ⟨90, 80, 70, 60, 95⟩⟩], true⟩ .absent).loaded = true ∧
    (load_data ⟨[⟨"S1", "Ann", ⟨90, 80, 70, 60, 95⟩⟩], true⟩ .absent).students ≠ [] := by
  decide

/-- C1 amended: on a fatal I/O error the reset never ran, so an absent
source leaves the whole previous state intact, and any other unreadable
source clears only Load State, keeping the stale record set; only when
no load had succeeded before (state initially unloaded and empty) does a
fatal error leave Load State false with an empty record set. -/
theorem load_data_fatal_error_behavior (st : Analyzer) (f : FileOutcome)
    (hf : f = .absent ∨ f = .unreadable) :
    (f = .absent → load_data st f = st) ∧
    (f = .unreadable → load_data st f = { st with loaded := false }) ∧
    (st.loaded = false → st.students = [] →
      (load_data st f).loaded = false ∧ (load_data st f).students = []) := by
  rcases hf with rfl | rfl
  · refine ⟨fun _ => rfl, fun h => ?_, fun h1 h2 => ⟨h1, h2⟩⟩
    simp at h
  · refine ⟨fun h => ?_, fun _ => rfl, fun h1 h2 => ⟨rfl, h2⟩⟩
    simp at h

/-- Witness for the amended C1 theorem at the never-loaded state and an
absent source. -/
theorem load_data_fatal_error_behavior_witness :
    (load_data ⟨[], false⟩ .absent).loaded = false ∧
    (load_data ⟨[], false⟩ .absent).students = [] :=
  (load_data_fatal_error_behavior ⟨[], false⟩ .absent (Or.inl rfl)).2.2 rfl rfl

/-- C10: a readable but empty source resets the record set, then the
header skip `next(file)` raises `StopIteration`, caught by the generic
handler, so the load fails: Load State false, record set empty, and
every engine query on the resulting state returns its not-loaded
sentinel. -/
theorem load_data_empty_file_is_failure (st : Analyzer) (sid c : String)
    (n : ℤ) (t : ℚ) :
    (load_data st (.content [])).loaded = false ∧
    (load_data st (.content [])).students = [] ∧
    check_data_loaded (load_data st (.content [])) = false ∧
    get_student_count (load_data st (.content [])) = 0 ∧
    validate_data (load_data st (.content [])) = false ∧
    calculate_student_average (load_data st (.content [])) sid = none ∧
    get_student_highest_score (load_data st (.content [])) sid = none ∧
    get_student_lowest_score (load_data st (.content [])) sid = none ∧
    is_student_passing (load_data st (.content [])) sid t = some false ∧
    get_course_scores (load_data st (.content [])) c = [] ∧
    calculate_course_average (load_data st (.content [])) c = 0 ∧
    find_course_median (load_data st (.content [])) c = none ∧
    get_course_grade_distribution (load_data st (.content [])) c = none ∧
    rank_courses_by_difficulty (load_data st (.content [])) = [] ∧
    get_course_statistics (load_data st (.content [])) c = none ∧
    rank_students_by_average (load_data st (.content [])) = [] ∧
    get_top_performers (load_data st (.content [])) n = [] ∧
    get_struggling_students (load_data st (.content [])) t = [] ∧
    calculate_class_statistics (load_data st (.content [])) = none ∧
    find_subject_correlations (load_data st (.content [])) = [] ∧
    get_grade_distribution_summary (load_data st (.content [])) = [] := by
  simp [load_data, check_data_loaded, get_student_count, validate_data,
    calculate_student_average, get_student_highest_score,
    get_student_lowest_score, is_student_passing, get_course_scores,
    calculate_course_average, find_course_median,
    get_course_grade_distribution, rank_courses_by_difficulty,
    get_course_statistics, rank_students_by_average, get_top_performers,
    get_struggling_students, calculate_class_statistics,
    find_subject_correlations, get_grade_distribution_summary]

/-- Closed form of the letter-grade band table loop. -/
theorem firstBand_eq (s : ℚ) :
    firstBand s gradeBands =
      if s ≥ 90 then 'A'
      else if s ≥ 80 then 'B'
      else if s ≥ 70 then 'C'
      else if s ≥ 60 then 'D'
      else if s ≥ 50 then 'E'
      else 'F' := by
  simp [firstBand, gradeBands]

/-- C4: on a numeric score in `[0, 100]` the bands are evaluated high to
low with the first match winning and boundary values in the higher band;
a score outside `[0, 100]` or a non-numeric argument gives `None`. -/
theorem convert_to_letter_grade_spec (q : ℚ) :
    (q < 0 ∨ q > 100 → convert_to_letter_grade (some q) = none) ∧
    convert_to_letter_grade none = none ∧
    (90 ≤ q → q ≤ 100 → convert_to_letter_grade (some q) = some 'A') ∧
    (80 ≤ q → q < 90 → convert_to_letter_grade (some q) = some 'B') ∧
    (70 ≤ q → q < 80 → convert_to_letter_grade (some q) = some 'C') ∧
    (60 ≤ q → q < 70 → convert_to_letter_grade (some q) = some 'D') ∧
    (50 ≤ q → q < 60 → convert_to_letter_grade (some q) = some 'E') ∧
    (0 ≤ q → q < 50 → convert_to_letter_grade (some q) = some 'F') := by
  refine ⟨fun h => by simp [convert_to_letter_grade, h], rfl, ?_, ?_, ?_, ?_, ?_, ?_⟩ <;>
    intro h1 h2 <;>
    · simp only [convert_to_letter_grade, firstBand_eq]
      rw [if_neg (by push_neg; constructor <;> linarith)]
      split_ifs <;> first | rfl | linarith

/-- Witness for C4 at the boundary score 90 (an `'A'`, not a `'B'`) and
at the out-of-range score 150. -/
theorem convert_to_letter_grade_spec_witness :
    convert_to_letter_grade (some 90) = some 'A' ∧
    convert_to_letter_grade (some 150) = none :=
  ⟨(convert_to_letter_grade_spec 90).2.2.1 (by norm_num) (by norm_num),
   (convert_to_letter_grade_spec 150).1 (Or.inr (by norm_num))⟩

/-- C3: on an unloaded engine `calculate_course_average` returns `0`
while `calculate_student_average` returns `None`, and the same sentinels
answer an invalid subject name respectively an unknown student id. -/
theorem average_sentinel_asymmetry (st : Analyzer) (c sid : String) :
    (st.loaded = false →
      calculate_course_average st c = 0 ∧ calculate_student_average st sid = none) ∧
    (c ∉ subjects → calculate_course_average st c = 0) ∧
    ((∀ s ∈ st.students, s.id ≠ sid) → calculate_student_average st sid = none) := by
  refine ⟨fun h => ?_, fun h => ?_, fun h => ?_⟩
  · simp [calculate_course_average, calculate_student_average, h]
  · simp [calculate_course_average, validate_course_name, h]
  · have hf : st.students.find? (fun s => s.id == sid) = none := by
      rw [List.find?_eq_none]
      intro s hs
      simpa using h s hs
    simp [calculate_student_average, validate_student_id, hf]

/-- Witness for C3: both sentinels on an unloaded engine, and both
sentinels on a loaded engine for an unknown subject and id. -/
theorem average_sentinel_asymmetry_witness :
    calculate_course_average ⟨[], false⟩ "Math" = 0 ∧
    calculate_student_average ⟨[], false⟩ "S1" = none ∧
    calculate_course_average ⟨[], true⟩ "Gym" = 0 ∧
    calculate_student_average ⟨[], true⟩ "S1" = none := by
  refine ⟨?_, ?_, ?_, ?_⟩
  · exact ((average_sentinel_asymmetry ⟨[], false⟩ "Math" "S1").1 rfl).1
  · exact ((average_sentinel_asymmetry ⟨[], false⟩ "Math" "S1").1 rfl).2
  · exact (average_sentinel_asymmetry ⟨[], true⟩ "Gym" "S1").2.1 (by decide)
  · exact (average_sentinel_asymmetry ⟨[], true⟩ "Gym" "S1").2.2 (by simp)

/-- C5: the median is computed from an ascending sorted permutation of
the course scores — index `n / 2` for odd `n`, the mean of the two
middle elements for even `n`, `None` for no scores — and on the
concrete Math columns `[70, 50, 60]` and `[70, 50, 60, 80]` it yields
`60` and `65`. -/
theorem find_course_median_spec (st : Analyzer) (c : String) :
    (∃ sorted : List ℤ,
      List.Perm sorted (get_course_scores st c) ∧
      sorted.Sorted (· ≤ ·) ∧
      find_course_median st c =
        (if sorted.length = 0 then none
         else if sorted.length % 2 = 1 then
           some ((sorted.getD (sorted.length / 2) 0 : ℤ) : ℚ)
         else
           some (((sorted.getD (sorted.length / 2 - 1) 0 : ℤ) +
             (sorted.getD (sorted.length / 2) 0 : ℤ) : ℚ) / 2))) ∧
    find_course_median exampleOdd "Math" = some 60 ∧
    find_course_median exampleEven "Math" = some 65 := by
  refine ⟨⟨(get_course_scores st c).insertionSort (· ≤ ·),
    List.perm_insertionSort _ _, List.sorted_insertionSort _ _, rfl⟩, ?_, ?_⟩
  · have h : (get_course_scores exampleOdd "Math").insertionSort (· ≤ ·) =
        [50, 60, 70] := by decide
    simp only [find_course_median, h]
    norm_num
  · have h : (get_course_scores exampleEven "Math").insertionSort (· ≤ ·) =
        [50, 60, 70, 80] := by decide
    simp only [find_course_median, h]
    norm_num

/-- Letters produced by a successful classification all lie in the
six-letter table. -/
theorem convert_to_letter_grade_mem (q : ℚ) (L : Char)
    (h : convert_to_letter_grade (some q) = some L) : L ∈ sixLetters := by
  simp only [convert_to_letter_grade, firstBand_eq] at h
  split_ifs at h <;>
    first
      | (obtain rfl := (Option.some.inj h).symm; decide)
      | exact absurd h (by simp)

/-- Incrementing one bucket adds one to that bucket's count and leaves
the other five counts unchanged. -/
theorem count_incr (dist : Dist) (L0 L : Char) (h0 : L0 ∈ sixLetters)
    (h : L ∈ sixLetters) :
    (dist.incr L0).count L = dist.count L + if L = L0 then 1 else 0 := by
  fin_cases h0 <;> fin_cases h <;> simp [Dist.incr, Dist.count]

/-- When every score classifies, the distribution loop succeeds and each
bucket counts the scores that classify into it. -/
theorem distribution_body_go (scores : List ℤ) (d0 : Dist)
    (h : ∀ x ∈ scores, convert_to_letter_grade (some (x : ℚ)) ≠ none) :
    ∃ dist, scores.foldlM (fun dist (sc : ℤ) =>
        match convert_to_letter_grade (some (sc : ℚ)) with
        | some L => Except.ok (dist.incr L)
        | none => Except.error ()) d0 = Except.ok dist ∧
      ∀ L ∈ sixLetters, dist.count L = d0.count L +
        (scores.filter
          (fun (x : ℤ) => convert_to_letter_grade (some (x : ℚ)) = some L)).length := by
  induction scores generalizing d0 with
  | nil => exact ⟨d0, rfl, fun L _ => by simp⟩
  | cons x xs ih =>
    have hx := h x (List.mem_cons_self x xs)
    obtain ⟨L0, hL0⟩ : ∃ L0, convert_to_letter_grade (some (x : ℚ)) = some L0 := by
      cases hcv : convert_to_letter_grade (some (x : ℚ)) with
      | none => exact absurd hcv hx
      | some L => exact ⟨L, rfl⟩
    obtain ⟨dist, hd, hcount⟩ :=
      ih (d0.incr L0) (fun y hy => h y (List.mem_cons_of_mem _ hy))
    refine ⟨dist, ?_, ?_⟩
    · simpa [hL0] using hd
    · intro L hL
      rw [hcount L hL,
        count_incr d0 L0 L (convert_to_letter_grade_mem _ _ hL0) hL,
        List.filter_cons]
      by_cases hLL : L = L0
      · subst hLL
        simp [hL0]
        omega
      · have hne : ¬ convert_to_letter_grade (some (x : ℚ)) = some L := by
          rw [hL0]
          intro hcon
          exact hLL (Option.some.inj hcon).symm
        simp [hne, hLL]

/-- C6 counterexample: the loader admits the out-of-range score 150, and
on the resulting loaded state the distribution call returns the empty
dict — not a mapping with the six keys — because `letter_grade`
classifies 150 as `None` and `distribution[None]` raises `KeyError`,
which the boundary converts to the empty sentinel. -/
theorem distribution_out_of_range_counterexample :
    exampleOver.loaded = true ∧
    (∃ s ∈ exampleOver.students, s.grades.math = 150) ∧
    get_course_grade_distribution exampleOver "Math" = none := by
  decide

/-- C6 amended: when every course score lies in `[0, 100]`, the
distribution call returns a mapping with all six keys, each counting the
scores that `letter_grade` classifies into that band; a record set
containing any out-of-range score instead makes the call return the
empty dict. -/
theorem distribution_all_keys_when_in_range (st : Analyzer) (c : String)
    (hl : st.loaded = true) (hc : c ∈ subjects)
    (hr : ∀ x ∈ get_course_scores st c, 0 ≤ x ∧ x ≤ 100) :
    ∃ dist, get_course_grade_distribution st c = some dist ∧
      ∀ L ∈ sixLetters, dist.count L =
        ((get_course_scores st c).filter
          (fun (x : ℤ) => convert_to_letter_grade (some (x : ℚ)) = some L)).length := by
  have hnn : ∀ x ∈ get_course_scores st c,
      convert_to_letter_grade (some (x : ℚ)) ≠ none := by
    intro x hx
    obtain ⟨h0, h100⟩ := hr x hx
    have h0q : (0 : ℚ) ≤ (x : ℚ) := by exact_mod_cast h0
    have h100q : (x : ℚ) ≤ 100 := by exact_mod_cast h100
    simp only [convert_to_letter_grade]
    rw [if_neg (by push_neg; exact ⟨by linarith, by linarith⟩)]
    simp
  obtain ⟨dist, hd, hcount⟩ :=
    distribution_body_go (get_course_scores st c) ⟨0, 0, 0, 0, 0, 0⟩ hnn
  refine ⟨dist, ?_, ?_⟩
  · simp [get_course_grade_distribution, hl, validate_course_name, hc,
      distribution_body, hd]
  · intro L hL
    rw [hcount L hL]
    have hz : Dist.count ⟨0, 0, 0, 0, 0, 0⟩ L = 0 := by
      unfold Dist.count
      split_ifs <;> rfl
    omega

/-- Witness for the amended C6 theorem on the in-range state
`exampleOdd`. -/
theorem distribution_all_keys_when_in_range_witness :
    ∃ dist, get_course_grade_distribution exampleOdd "Math" = some dist ∧
      ∀ L ∈ sixLetters, dist.count L =
        ((get_course_scores exampleOdd "Math").filter
          (fun (x : ℤ) => convert_to_letter_grade (some (x : ℚ)) = some L)).length :=
  distribution_all_keys_when_in_range exampleOdd "Math" rfl (by decide) (by decide)

/-- Queries issued before a successful load all return their not-loaded
sentinels. -/
theorem unloaded_sentinels (st : Analyzer) (h : st.loaded = false)
    (sid c : String) (n : ℤ) (t : ℚ) :
    check_data_loaded st = false ∧
    get_student_count st = 0 ∧
    validate_data st = false ∧
    calculate_student_average st sid = none ∧
    get_student_highest_score st sid = none ∧
    get_student_lowest_score st sid = none ∧
    is_student_passing st sid t = some false ∧
    get_course_scores st c = [] ∧
    calculate_course_average st c = 0 ∧
    find_course_median st c = none ∧
    get_course_grade_distribution st c = none ∧
    rank_courses_by_difficulty st = [] ∧
    get_course_statistics st c = none ∧
    rank_students_by_average st = [] ∧
    get_top_performers st n = [] ∧
    get_struggling_students st t = [] ∧
    calculate_class_statistics st = none ∧
    find_subject_correlations st = [] ∧
    get_grade_distribution_summary st = [] := by
  simp [h, check_data_loaded, get_student_count, validate_data,
    calculate_student_average, get_student_highest_score,
    get_student_lowest_score, is_student_passing, get_course_scores,
    calculate_course_average, find_course_median,
    get_course_grade_distribution, rank_courses_by_difficulty,
    get_course_statistics, rank_students_by_average, get_top_performers,
    get_struggling_students, calculate_class_statistics,
    find_subject_correlations, get_grade_distribution_summary]

/-- C2: every internal failure of an engine operation is caught at the
operation boundary and turned into that operation's sentinel — the
distribution loop's `KeyError`, queries before a successful load,
invalid course names, unknown student ids, out-of-range thresholds,
non-positive rank sizes, and invalid scores — so no failure escapes a
public call (each operation is a total function of the state and its
arguments). -/
theorem public_boundary_sentinels (st : Analyzer) (sid c : String)
    (n : ℤ) (t q : ℚ) :
    (∀ e : Unit, distribution_body (get_course_scores st c) = .error e →
      get_course_grade_distribution st c = none) ∧
    (st.loaded = false →
      check_data_loaded st = false ∧
      get_student_count st = 0 ∧
      validate_data st = false ∧
      calculate_student_average st sid = none ∧
      get_student_highest_score st sid = none ∧
      get_student_lowest_score st sid = none ∧
      is_student_passing st sid t = some false ∧
      get_course_scores st c = [] ∧
      calculate_course_average st c = 0 ∧
      find_course_median st c = none ∧
      get_course_grade_distribution st c = none ∧
      rank_courses_by_difficulty st = [] ∧
      get_course_statistics st c = none ∧
      rank_students_by_average st = [] ∧
      get_top_performers st n = [] ∧
      get_struggling_students st t = [] ∧
      calculate_class_statistics st = none ∧
      find_subject_correlations st = [] ∧
      get_grade_distribution_summary st = []) ∧
    (c ∉ subjects →
      get_course_scores st c = [] ∧
      calculate_course_average st c = 0 ∧
      find_course_median st c = none ∧
      get_course_grade_distribution st c = none ∧
      get_course_statistics st c = none) ∧
    (st.loaded = true → (∀ s ∈ st.students, s.id ≠ sid) →
      calculate_student_average st sid = none ∧
      get_student_highest_score st sid = none ∧
      get_student_lowest_score st sid = none ∧
      is_student_passing st sid t = none) ∧
    (st.loaded = true → t < 0 ∨ t > 100 →
      get_struggling_students st t = [] ∧
      ((∃ s ∈ st.students, s.id = sid) → is_student_passing st sid t = none)) ∧
    (st.loaded = true → n ≤ 0 → get_top_performers st n = []) ∧
    (q < 0 ∨ q > 100 → convert_to_letter_grade (some q) = none) ∧
    convert_to_letter_grade none = none := by
  refine ⟨?_, ?_, ?_, ?_, ?_, ?_, ?_, rfl⟩
  · intro e he
    rcases hb : st.loaded with _ | _
    · simp [get_course_grade_distribution, hb]
    · rcases hc : validate_course_name c with _ | c'
      · simp [get_course_grade_distribution, hb, hc]
      · simp [get_course_grade_distribution, hb, hc, he]
  · intro h
    exact unloaded_sentinels st h sid c n t
  · intro h
    have hc : validate_course_name c = none := by simp [validate_course_name, h]
    refine ⟨?_, ?_, ?_, ?_, ?_⟩ <;>
      simp [get_course_scores, calculate_course_average, find_course_median,
        get_course_grade_distribution, get_course_statistics, hc, h,
        distribution_body]
  · intro hl h
    have hf : st.students.find? (fun s => s.id == sid) = none := by
      rw [List.find?_eq_none]
      intro s hs
      simpa using h s hs
    refine ⟨?_, ?_, ?_, ?_⟩ <;>
      simp [calculate_student_average, get_student_highest_score,
        get_student_lowest_score, is_student_passing, validate_student_id,
        hf, hl]
  · intro hl ht
    refine ⟨by simp [get_struggling_students, hl, ht], fun ⟨s, hs, hsid⟩ => ?_⟩
    have hf : ∃ s', st.students.find? (fun s => s.id == sid) = some s' := by
      have : (st.students.find? (fun s => s.id == sid)).isSome := by
        rw [List.find?_isSome]
        exact ⟨s, hs, by simp [hsid]⟩
      exact Option.isSome_iff_exists.mp this
    obtain ⟨s', hs'⟩ := hf
    simp [is_student_passing, validate_student_id, hs', hl, ht]
  · intro hl hn
    simp [get_top_performers, hl, hn]
  · intro hq
    simp [convert_to_letter_grade, hq]

/-- Witness for C2: one concrete instance per failure kind — caught
`KeyError`, unloaded query, invalid course, unknown id, out-of-range
threshold, non-positive `n`, and out-of-range score. -/
theorem public_boundary_sentinels_witness :
    get_course_grade_distribution exampleOver "Math" = none ∧
    calculate_student_average ⟨[], false⟩ "S1" = none ∧
    calculate_course_average ⟨[], true⟩ "Gym" = 0 ∧
    calculate_student_average ⟨[], true⟩ "S1" = none ∧
    get_struggling_students exampleOdd 150 = [] ∧
    get_top_performers exampleOdd 0 = [] ∧
    convert_to_letter_grade (some 150) = none := by
  refine ⟨?_, ?_, ?_, ?_, ?_, ?_, ?_⟩
  · exact (public_boundary_sentinels exampleOver "S1" "Math" 5 60 0).1 () (by rfl)
  · exact ((public_boundary_sentinels ⟨[], false⟩ "S1" "Math" 5 60 0).2.1 rfl).2.2.2.1
  · exact ((public_boundary_sentinels ⟨[], true⟩ "S1" "Gym" 5 60 0).2.2.1 (by decide)).2.1
  · exact ((public_boundary_sentinels ⟨[], true⟩ "S1" "Math" 5 60 0).2.2.2.1
      rfl (by simp)).1
  · exact ((public_boundary_sentinels exampleOdd "S1" "Math" 5 150 0).2.2.2.2.1
      rfl (Or.inr (by norm_num))).1
  · exact (public_boundary_sentinels exampleOdd "S1" "Math" 0 60 0).2.2.2.2.2.1
      rfl (by norm_num)
  · exact (public_boundary_sentinels ⟨[], true⟩ "S1" "Math" 5 60 150).2.2.2.2.2.2.1
      (Or.inr (by norm_num))

/-- Lookup of a record's own id in a store with pairwise-distinct ids
returns that record. -/
theorem find_own_id (l : List Student)
    (hids : l.Pairwise (fun s t => s.id ≠ t.id)) (s : Student) (hs : s ∈ l) :
    l.find? (fun t => t.id == s.id) = some s := by
  induction l with
  | nil => cases hs
  | cons a as ih =>
    rcases List.mem_cons.mp hs with rfl | hmem
    · simp
    · have hne : a.id ≠ s.id := (List.pairwise_cons.mp hids).1 s hmem
      rw [List.find?_cons_of_neg _ (by simpa using hne)]
      exact ih (List.pairwise_cons.mp hids).2 hmem

/-- Stability of the embedded sort: filtering the sorted list by any
predicate whose selected elements are all related both ways (tied keys)
gives exactly the filtered input, in input order. -/
theorem insertionSort_filter_of_ties {α : Type} {r : α → α → Prop}
    [DecidableRel r] (l : List α) (p : α → Bool)
    (hp : ∀ x y, p x = true → p y = true → r x y) :
    (l.insertionSort r).filter p = l.filter p := by
  have hsub : List.Sublist (l.filter p) (l.insertionSort r) := by
    apply List.sublist_insertionSort
    · exact List.pairwise_of_forall_mem_list fun x hx y hy =>
        hp x y (List.of_mem_filter hx) (List.of_mem_filter hy)
    · exact List.filter_sublist l
  have h2 : List.Sublist (l.filter p) ((l.insertionSort r).filter p) := by
    have h3 := hsub.filter p
    rwa [List.filter_filter, (by funext a; simp : (fun a => p a && p a) = p)] at h3
  have hperm : List.Perm ((l.insertionSort r).filter p) (l.filter p) :=
    (List.perm_insertionSort r l).filter p
  exact (h2.eq_of_length hperm.length_eq.symm).symm

/-- With pairwise-distinct ids every record's average lookup resolves to
the record itself. -/
theorem rank_base_map_eq (st : Analyzer) (hl : st.loaded = true)
    (hids : st.students.Pairwise (fun s t => s.id ≠ t.id)) :
    st.students.map
        (fun s => (s.id, (calculate_student_average st s.id).getD 0)) =
      st.students.map (fun s => (s.id, studentAvgVal s)) := by
  apply List.map_congr_left
  intro s hs
  have hfind : validate_student_id st s.id = some s := find_own_id _ hids s hs
  simp [calculate_student_average, hl, hfind, studentAvgVal]

/-- C7: on a loaded store with distinct ids the ranking pairs every
student exactly once with that student's average (a permutation of the
record-order list of pairs), is descending in the average, and — the
sort being stable — students with equal averages keep their original
Record Store order. -/
theorem rank_students_by_average_spec (st : Analyzer) (hl : st.loaded = true)
    (hids : st.students.Pairwise (fun s t => s.id ≠ t.id)) :
    List.Perm (rank_students_by_average st)
      (st.students.map (fun s => (s.id, studentAvgVal s))) ∧
    (rank_students_by_average st).Pairwise (fun x y => y.2 ≤ x.2) ∧
    ∀ q : ℚ, (rank_students_by_average st).filter (fun x => x.2 == q) =
      (st.students.map (fun s => (s.id, studentAvgVal s))).filter
        (fun x => x.2 == q) := by
  have hdef : rank_students_by_average st =
      (st.students.map (fun s => (s.id, studentAvgVal s))).insertionSort
        (fun x y => y.2 ≤ x.2) := by
    rw [rank_students_by_average, rank_base_map_eq st hl hids]
    simp [hl]
  rw [hdef]
  haveI : IsTotal (String × ℚ) (fun x y => y.2 ≤ x.2) :=
    ⟨fun a b => le_total b.2 a.2⟩
  haveI : IsTrans (String × ℚ) (fun x y => y.2 ≤ x.2) :=
    ⟨fun _ _ _ hab hbc => le_trans hbc hab⟩
  refine ⟨List.perm_insertionSort _ _, List.sorted_insertionSort _ _, fun q => ?_⟩
  exact insertionSort_filter_of_ties _ _ (fun x y hx hy => by
    have hx' : x.2 = q := by simpa using hx
    have hy' : y.2 = q := by simpa using hy
    rw [hx', hy'])

/-- Witness for C7 on the four-student state, whose ids are pairwise
distinct. -/
theorem rank_students_by_average_spec_witness :
    (rank_students_by_average exampleEven).Pairwise (fun x y => y.2 ≤ x.2) :=
  (rank_students_by_average_spec exampleEven rfl (by decide)).2.1

/-- With zero variance the classification is NaN. -/
theorem pearson_nan_of_sumSqDev_eq_zero (xs ys : List ℤ)
    (h : sumSqDev xs = 0) : pearson xs ys = .nan := by
  rw [pearson, if_pos (Or.inl h)]

/-- A one-element column has zero sum of squared deviations. -/
theorem sumSqDev_singleton (z : ℤ) : sumSqDev [z] = 0 := by
  simp [sumSqDev]

open Classical in
/-- C8 counterexample: on the loaded single-student state every column
variance is zero, so `np.corrcoef` yields NaN for all 10 pairs; the
entries then carry no real correlation and, NaN failing every
comparison, the output violates the descending-by-absolute-value chain
in every order, so the claimed invariant fails on a reachable loaded
record set. -/
theorem find_subject_correlations_nan_counterexample :
    exampleSingle.loaded = true ∧
    (find_subject_correlations exampleSingle).length = 10 ∧
    (∀ x ∈ find_subject_correlations exampleSingle, x.2.2 = PyFloat.nan) ∧
    ¬ (find_subject_correlations exampleSingle).Pairwise
        (fun x y => pyLe (pyAbs y.2.2) (pyAbs x.2.2)) := by
  have hstud : exampleSingle.students = [⟨"S1", "Ann", ⟨90, 80, 70, 60, 95⟩⟩] := by
    decide
  have hcol : ∀ c, ∃ z : ℤ, colScores exampleSingle c = [z] := by
    intro c
    exact ⟨_, by rw [colScores, hstud]; rfl⟩
  have hdef : find_subject_correlations exampleSingle =
      ((upperPairs subjects).map
        (fun p => (p.1, p.2,
          pearson (colScores exampleSingle p.1)
            (colScores exampleSingle p.2)))).insertionSort
        (fun x y => pyLe (pyAbs y.2.2) (pyAbs x.2.2)) := by
    simp [find_subject_correlations, show exampleSingle.loaded = true from rfl]
  have hnan : ∀ x ∈ find_subject_correlations exampleSingle,
      x.2.2 = PyFloat.nan := by
    intro x hx
    rw [hdef, List.mem_insertionSort] at hx
    obtain ⟨p, hp, rfl⟩ := List.mem_map.mp hx
    obtain ⟨z, hz⟩ := hcol p.1
    exact pearson_nan_of_sumSqDev_eq_zero _ _ (by rw [hz]; exact sumSqDev_singleton z)
  have hlen : (find_subject_correlations exampleSingle).length = 10 := by
    rw [hdef, List.length_insertionSort, List.length_map]
    rfl
  refine ⟨rfl, hlen, hnan, fun hpw => ?_⟩
  obtain ⟨a, l1, h1⟩ : ∃ a l1, find_subject_correlations exampleSingle = a :: l1 := by
    cases hout : find_subject_correlations exampleSingle with
    | nil => rw [hout] at hlen; simp at hlen
    | cons a l1 => exact ⟨a, l1, rfl⟩
  obtain ⟨b, l2, h2⟩ : ∃ b l2, l1 = b :: l2 := by
    cases hl1 : l1 with
    | nil => rw [h1, hl1] at hlen; simp at hlen
    | cons b l2 => exact ⟨b, l2, rfl⟩
  rw [h1, h2] at hpw
  have hr := (List.pairwise_cons.mp hpw).1 b (List.mem_cons_self b l2)
  have ha : a.2.2 = PyFloat.nan := hnan a (by rw [h1]; exact List.mem_cons_self _ _)
  have hb : b.2.2 = PyFloat.nan :=
    hnan b (by rw [h1, h2]; exact List.mem_cons_of_mem _ (List.mem_cons_self _ _))
  rw [ha, hb] at hr
  exact hr

open Classical in
/-- C8 amended: when every subject column has nonzero variance (so every
Pearson coefficient is defined), the correlation query returns exactly
10 entries — one per unordered pair of the 5 catalog subjects, each
carrying the real Pearson correlation of the two score columns — sorted
so that each entry's absolute correlation is at least the next one's;
when some column has zero variance the affected entries carry NaN and
the descending chain fails (see the counterexample). -/
theorem find_subject_correlations_nonzero_variance_spec (st : Analyzer)
    (hl : st.loaded = true)
    (hvar : ∀ c ∈ subjects, sumSqDev (colScores st c) ≠ 0) :
    (find_subject_correlations st).length = 10 ∧
    List.Perm (find_subject_correlations st)
      ((upperPairs subjects).map
        (fun p => (p.1, p.2,
          PyFloat.val (pearsonVal (colScores st p.1) (colScores st p.2))))) ∧
    (find_subject_correlations st).Pairwise
      (fun x y => pyLe (pyAbs y.2.2) (pyAbs x.2.2)) := by
  have hpairs : ∀ p ∈ upperPairs subjects, p.1 ∈ subjects ∧ p.2 ∈ subjects := by
    decide
  have hbase : (upperPairs subjects).map
        (fun p => (p.1, p.2, pearson (colScores st p.1) (colScores st p.2))) =
      ((upperPairs subjects).map
        (fun p => (p.1, p.2,
          pearsonVal (colScores st p.1) (colScores st p.2)))).map
        (fun t => (t.1, t.2.1, PyFloat.val t.2.2)) := by
    rw [List.map_map]
    refine List.map_congr_left fun p hp => ?_
    obtain ⟨h1, h2⟩ := hpairs p hp
    show (p.1, p.2, pearson (colScores st p.1) (colScores st p.2)) = _
    rw [pearson, if_neg (by push_neg; exact ⟨hvar _ h1, hvar _ h2⟩)]
    rfl
  have hdef : find_subject_correlations st =
      (((upperPairs subjects).map
        (fun p => (p.1, p.2,
          pearsonVal (colScores st p.1) (colScores st p.2)))).map
        (fun t => (t.1, t.2.1, PyFloat.val t.2.2))).insertionSort
        (fun x y => pyLe (pyAbs y.2.2) (pyAbs x.2.2)) := by
    rw [find_subject_correlations, hl]
    rw [hbase]
    rfl
  have hmap : (((upperPairs subjects).map
        (fun p => (p.1, p.2,
          pearsonVal (colScores st p.1) (colScores st p.2)))).insertionSort
        (fun x y => |y.2.2| ≤ |x.2.2|)).map
        (fun t => (t.1, t.2.1, PyFloat.val t.2.2)) =
      (((upperPairs subjects).map
        (fun p => (p.1, p.2,
          pearsonVal (colScores st p.1) (colScores st p.2)))).map
        (fun t => (t.1, t.2.1, PyFloat.val t.2.2))).insertionSort
        (fun x y => pyLe (pyAbs y.2.2) (pyAbs x.2.2)) :=
    List.map_insertionSort _ _ _ _ (fun _ _ _ _ => Iff.rfl)
  rw [hdef, ← hmap]
  haveI : IsTotal (String × String × ℝ) (fun x y => |y.2.2| ≤ |x.2.2|) :=
    ⟨fun a b => le_total _ _⟩
  haveI : IsTrans (String × String × ℝ) (fun x y => |y.2.2| ≤ |x.2.2|) :=
    ⟨fun _ _ _ hab hbc => le_trans hbc hab⟩
  refine ⟨?_, ?_, ?_⟩
  · rw [List.length_map, List.length_insertionSort, List.length_map]
    rfl
  · have hperm := (List.perm_insertionSort
      (fun x y : String × String × ℝ => |y.2.2| ≤ |x.2.2|)
      ((upperPairs subjects).map
        (fun p => (p.1, p.2,
          pearsonVal (colScores st p.1) (colScores st p.2))))).map
      (fun t : String × String × ℝ => (t.1, t.2.1, PyFloat.val t.2.2))
    refine hperm.trans ?_
    rw [List.map_map]
    exact List.Perm.refl _
  · rw [List.pairwise_map]
    exact (List.sorted_insertionSort
      (fun x y : String × String × ℝ => |y.2.2| ≤ |x.2.2|) _).imp fun h => h

/-- Witness for the amended C8 theorem on the four-student state, whose
five columns all have nonzero variance. -/
theorem find_subject_correlations_nonzero_variance_witness :
    (find_subject_correlations exampleEven).length = 10 :=
  (find_subject_correlations_nonzero_variance_spec exampleEven rfl (by
    intro c hc
    simp only [subjects, List.mem_cons, List.not_mem_nil, or_false] at hc
    rcases hc with rfl | rfl | rfl | rfl | rfl
    · rw [show colScores exampleEven "Math" = [70, 50, 60, 80] from by decide]
      norm_num [sumSqDev]
    · rw [show colScores exampleEven "Physics" = [10, 11, 12, 13] from by decide]
      norm_num [sumSqDev]
    · rw [show colScores exampleEven "Chemistry" = [20, 21, 22, 23] from by decide]
      norm_num [sumSqDev]
    · rw [show colScores exampleEven "Biology" = [30, 31, 32, 33] from by decide]
      norm_num [sumSqDev]
    · rw [show colScores exampleEven "English" = [40, 41, 42, 43] from by decide]
      norm_num [sumSqDev])).1

/-- C9 counterexample: the copy returned by the `students` accessor holds
the very record objects of the store (`list.copy()` is shallow), so
mutating a record reached through the copy changes the store's
subsequent query results: the average of the only student drops from 79
to 61 after the record's Math grade is overwritten through the shared
reference. -/
theorem students_copy_shares_records_counterexample :
    (students_copy exHeap exStore 1).1.lists (students_copy exHeap exStore 1).2 =
      exHeap.lists exStore.studentsAddr ∧
    calculate_student_average (storeAnalyzer exHeap exStore) "S1" = some 79 ∧
    calculate_student_average
      (storeAnalyzer
        (setRec (students_copy exHeap exStore 1).1 0
          ⟨"S1", "Ann", ⟨0, 80, 70, 60, 95⟩⟩)
        exStore) "S1" = some 61 := by
  refine ⟨rfl, ?_, ?_⟩
  · have hfind : validate_student_id (storeAnalyzer exHeap exStore) "S1" =
        some ⟨"S1", "Ann", ⟨90, 80, 70, 60, 95⟩⟩ := by decide
    have hl : (storeAnalyzer exHeap exStore).loaded = true := rfl
    simp only [calculate_student_average, hl, hfind, Grades.values]
    norm_num
  · have hfind : validate_student_id
        (storeAnalyzer
          (setRec (students_copy exHeap exStore 1).1 0
            ⟨"S1", "Ann", ⟨0, 80, 70, 60, 95⟩⟩) exStore) "S1" =
        some ⟨"S1", "Ann", ⟨0, 80, 70, 60, 95⟩⟩ := by decide
    have hl : (storeAnalyzer
        (setRec (students_copy exHeap exStore 1).1 0
          ⟨"S1", "Ann", ⟨0, 80, 70, 60, 95⟩⟩) exStore).loaded = true := rfl
    simp only [calculate_student_average, hl, hfind, Grades.values]
    norm_num

/-- C9 amended: the accessor is a shallow defensive copy — it allocates
a fresh list object with the same record references in store order and
leaves the store's view untouched, and mutating the returned list object
itself changes neither the store's records nor any query result; record
objects, however, are shared (see the counterexample). -/
theorem students_copy_shallow_spec (h : Heap) (st : StoreSt) (fresh : ℕ)
    (hf : fresh ≠ st.studentsAddr) :
    (students_copy h st fresh).1.lists (students_copy h st fresh).2 =
      h.lists st.studentsAddr ∧
    storeAnalyzer (students_copy h st fresh).1 st = storeAnalyzer h st ∧
    (∀ l', storeAnalyzer (setList (students_copy h st fresh).1 fresh l') st =
      storeAnalyzer h st) ∧
    (∀ l' sid,
      get_student_count
          (storeAnalyzer (setList (students_copy h st fresh).1 fresh l') st) =
        get_student_count (storeAnalyzer h st) ∧
      calculate_student_average
          (storeAnalyzer (setList (students_copy h st fresh).1 fresh l') st) sid =
        calculate_student_average (storeAnalyzer h st) sid) := by
  have hmut : ∀ l',
      storeAnalyzer (setList (students_copy h st fresh).1 fresh l') st =
        storeAnalyzer h st := by
    intro l'
    simp [storeAnalyzer, storeRecords, students_copy, setList, Ne.symm hf]
  refine ⟨?_, ?_, hmut, fun l' sid => by rw [hmut l']; exact ⟨rfl, rfl⟩⟩
  · simp [students_copy]
  · simp [storeAnalyzer, storeRecords, students_copy, Ne.symm hf]

/-- Witness for the amended C9 theorem on the concrete heap, allocating
the copy at the unused list address 1. -/
theorem students_copy_shallow_spec_witness :
    storeAnalyzer (students_copy exHeap exStore 1).1 exStore =
      storeAnalyzer exHeap exStore :=
  (students_copy_shallow_spec exHeap exStore 1 (by decide)).2.1

end GA
